import Mathlib

/-!
Verification of the MAX30101 sensor-acquisition pipeline
(MAX30101.h / MAX30101.c driver plus the SysTick trigger in main.c).

Embedding conventions:
* An I2C bus transaction emitted by the driver is recorded as an `I2CTxn`
  value; each driver operation returns the ordered list of transactions it
  issues, in program order.
* The device's auto-incrementing FIFO data port is modelled as a byte
  stream `fifo : Nat → Nat`; the j-th byte clocked off the data port is
  `fifo j % 256` (the `% 256` reflects that the bus delivers `uint8_t`).
* Destination buffers (`MAX30101_Sample *samples` and friends) are
  modelled as total functions `Nat → α` updated pointwise, so that writes
  past the end of a C array of a given capacity remain observable.
* `uint8_t` / `uint16_t` values are `Nat` with explicit `% 256` / `% 65536`
  where the C types truncate.
* The single `float32` multiply `(float32_t)temp * MAX30101_CURRENT_LSB_NA`
  is modelled by an arbitrary operation `fmul : ℚ → ℚ → ℚ` applied to the
  exact rational images of its operands (a `uint16_t → float32` cast is
  exact, and every `float32` value is a rational).  Statements quantified
  over `fmul` therefore hold in particular for the machine's rounding
  multiply; instantiating `fmul` with exact rational multiplication gives
  the exact-arithmetic readings.
-/

/-! ## Register map and constants (MAX30101.h) -/

def SENSOR_ADDR : Nat := 0xAE

def FIFO_WRITPTR : Nat := 0x04

def OVRF_COUNTER : Nat := 0x05

def FIFO_READPTR : Nat := 0x06

def FIFO_DATAREG : Nat := 0x07

def FIFO_CONFIG : Nat := 0x08

def MODE_CONFIG : Nat := 0x09

def SPO2_CONFIG : Nat := 0x0A

def LED1_PAMPLI : Nat := 0x0C

def LED2_PAMPLI : Nat := 0x0D

def LED3_PAMPLI : Nat := 0x0E

def DIE_TEMPCFG : Nat := 0x21

def BUFFERBLOCKSIZE : Nat := 0x8

/-- MAX30101_CURRENT_LSB_PA: 7.81f, the LSB size in picoamps, as an exact
rational. -/
def MAX30101_CURRENT_LSB_PA : ℚ := 781 / 100

/-- MAX30101_CURRENT_LSB_NA: MAX30101_CURRENT_LSB_PA / 1000.0f, the LSB
size in nanoamps. -/
def MAX30101_CURRENT_LSB_NA : ℚ := MAX30101_CURRENT_LSB_PA / 1000

/-- Capacity of the global result buffer
`MAX30101_SampleCurrent MAX30101_SampleCurrentBuffer[8]` declared in
main.c. -/
def MAX30101_SampleCurrentBufferCapacity : Nat := 8

/-! ## Data model -/

/-- One I2C transaction issued by the driver through the bus layer
(I2C1_Write / I2C1_Read of I2C.h).  A read records the number of bytes
requested; the bytes delivered come from the environment model. -/
inductive I2CTxn where
  | write (slave addr data : Nat)
  | read (slave addr size : Nat)
deriving DecidableEq

/-- MAX30101_Sample: raw FIFO sample, three channels of two `uint8_t`
bytes (MSB, LSB) each. -/
structure MAX30101_Sample where
  red0 : Nat
  red1 : Nat
  ir0 : Nat
  ir1 : Nat
  green0 : Nat
  green1 : Nat
deriving DecidableEq

/-- MAX30101_SampleData: per-channel 16-bit unsigned ADC counts. -/
structure MAX30101_SampleData where
  red : Nat
  ir : Nat
  green : Nat
deriving DecidableEq

/-- MAX30101_SampleCurrent: per-channel calibrated current in nanoamps
(`float32_t` in the source, represented by its exact rational value). -/
structure MAX30101_SampleCurrent where
  red : ℚ
  ir : ℚ
  green : ℚ
deriving DecidableEq

/-- Pointwise update of a function-modelled destination buffer:
the effect of the C assignment `buf[i] = v`. -/
def bufUpdate {α : Type} (buf : Nat → α) (i : Nat) (v : α) : Nat → α :=
  fun j => if j = i then v else buf j

/-! ## Device configuration (MAX30101_InitSPO2Lite / MAX30101_InitMuscleOx)

Each configuration routine is a straight-line sequence of I2C1_Write
calls; its embedding is the ordered transaction list it emits. -/

/-- MAX30101_InitSPO2Lite: the ordered register-write sequence of the
dual-channel (SpO2) low-power configuration. -/
def MAX30101_InitSPO2Lite : List I2CTxn :=
  [ I2CTxn.write SENSOR_ADDR FIFO_CONFIG 0x4F,
    I2CTxn.write SENSOR_ADDR MODE_CONFIG 0x03,
    I2CTxn.write SENSOR_ADDR SPO2_CONFIG 0x23,
    I2CTxn.write SENSOR_ADDR FIFO_READPTR 0x0,
    I2CTxn.write SENSOR_ADDR FIFO_WRITPTR 0x0,
    I2CTxn.write SENSOR_ADDR LED1_PAMPLI 0x18,
    I2CTxn.write SENSOR_ADDR LED2_PAMPLI 0x18,
    I2CTxn.write SENSOR_ADDR DIE_TEMPCFG 0x01 ]

/-- MAX30101_InitMuscleOx: the ordered register-write sequence of the
triple-channel (multi-LED) configuration; `ledPower` is the caller's
`uint8_t` drive-current code. -/
def MAX30101_InitMuscleOx (ledPower : Nat) : List I2CTxn :=
  [ I2CTxn.write SENSOR_ADDR FIFO_CONFIG 0x4F,
    I2CTxn.write SENSOR_ADDR MODE_CONFIG 0x07,
    I2CTxn.write SENSOR_ADDR SPO2_CONFIG 0x26,
    I2CTxn.write SENSOR_ADDR FIFO_READPTR 0x0,
    I2CTxn.write SENSOR_ADDR FIFO_WRITPTR 0x0,
    I2CTxn.write SENSOR_ADDR LED1_PAMPLI ledPower,
    I2CTxn.write SENSOR_ADDR LED2_PAMPLI ledPower,
    I2CTxn.write SENSOR_ADDR LED3_PAMPLI ledPower,
    I2CTxn.write SENSOR_ADDR DIE_TEMPCFG 0x01 ]

/-- Index of the first write transaction addressing register `reg` in a
transaction list. -/
def regWriteIdx (tr : List I2CTxn) (reg : Nat) : Nat :=
  tr.findIdx fun t =>
    match t with
    | I2CTxn.write _ a _ => a == reg
    | I2CTxn.read _ _ _ => false

/-! ## FIFO availability (MAX30101_GetNumAvailableSamples) -/

/-- MAX30101_GetNumAvailableSamples, as a function of the two raw register
bytes delivered by the bus: mask each to 5 bits, then
`if write_ptr >= read_ptr then write_ptr - read_ptr
 else (32 - read_ptr) + write_ptr`. -/
def MAX30101_GetNumAvailableSamples (write_reg read_reg : Nat) : Nat :=
  let write_ptr := write_reg &&& 0x1F
  let read_ptr := read_reg &&& 0x1F
  if write_ptr ≥ read_ptr then write_ptr - read_ptr
  else (32 - read_ptr) + write_ptr

/-- The two single-byte register reads MAX30101_GetNumAvailableSamples
issues (write pointer, then read pointer). -/
def MAX30101_GetNumAvailableSamples_txns : List I2CTxn :=
  [ I2CTxn.read SENSOR_ADDR FIFO_WRITPTR 1,
    I2CTxn.read SENSOR_ADDR FIFO_READPTR 1 ]

/-! ## FIFO reads (MAX30101_ReadFIFO / MAX30101_ReadFIFO_Current) -/

/-- The raw sample the i-th loop iteration of MAX30101_ReadFIFO stores:
six consecutive bytes off the auto-incrementing data port, two per
channel. -/
def rawSampleAt (fifo : Nat → Nat) (i : Nat) : MAX30101_Sample :=
  let fifo_data := fun j => fifo (6 * i + j) % 256
  { red0 := fifo_data 0, red1 := fifo_data 1,
    ir0 := fifo_data 2, ir1 := fifo_data 3,
    green0 := fifo_data 4, green1 := fifo_data 5 }

/-- Loop of MAX30101_ReadFIFO: iteration index `i`, remaining iteration
count, destination buffer.  Each iteration issues one 6-byte burst read of
FIFO_DATAREG and stores the sample at index `i`. -/
def MAX30101_ReadFIFO_go (fifo : Nat → Nat) :
    Nat → Nat → (Nat → MAX30101_Sample) →
    (Nat → MAX30101_Sample) × List I2CTxn
  | _, 0, samples => (samples, [])
  | i, Nat.succ k, samples =>
    let rest := MAX30101_ReadFIFO_go fifo (i + 1) k
      (bufUpdate samples i (rawSampleAt fifo i))
    (rest.1, I2CTxn.read SENSOR_ADDR FIFO_DATAREG 6 :: rest.2)

/-- MAX30101_ReadFIFO: reads `num_samples` raw samples into the
destination buffer, returning the final buffer contents and the bus
trace. -/
def MAX30101_ReadFIFO (fifo : Nat → Nat) (samples : Nat → MAX30101_Sample)
    (num_samples : Nat) : (Nat → MAX30101_Sample) × List I2CTxn :=
  MAX30101_ReadFIFO_go fifo 0 num_samples samples

/-- MAX30101_ConvertSampleToUint16: per channel,
`((uint16_t)hi << 8) | lo` stored into a `uint16_t` field. -/
def MAX30101_ConvertSampleToUint16 (sample_in : MAX30101_Sample) :
    MAX30101_SampleData :=
  { red := ((sample_in.red0 <<< 8) ||| sample_in.red1) % 65536,
    ir := ((sample_in.ir0 <<< 8) ||| sample_in.ir1) % 65536,
    green := ((sample_in.green0 <<< 8) ||| sample_in.green1) % 65536 }

/-- MAX30101_ConvertUint16ToCurrent: per channel, one float multiply
`(float32_t)count * MAX30101_CURRENT_LSB_NA`, with the multiply modelled
by `fmul`. -/
def MAX30101_ConvertUint16ToCurrent (fmul : ℚ → ℚ → ℚ)
    (sample_in : MAX30101_SampleData) : MAX30101_SampleCurrent :=
  { red := fmul (sample_in.red : ℚ) MAX30101_CURRENT_LSB_NA,
    ir := fmul (sample_in.ir : ℚ) MAX30101_CURRENT_LSB_NA,
    green := fmul (sample_in.green : ℚ) MAX30101_CURRENT_LSB_NA }

/-- The converted sample the i-th loop iteration of
MAX30101_ReadFIFO_Current stores: per channel,
`temp = ((uint16_t)hi << 8) | lo` then `(float32_t)temp * LSB`. -/
def currentSampleAt (fmul : ℚ → ℚ → ℚ) (fifo : Nat → Nat) (i : Nat) :
    MAX30101_SampleCurrent :=
  let fifo_data := fun j => fifo (6 * i + j) % 256
  { red := fmul ((((fifo_data 0 <<< 8) ||| fifo_data 1) % 65536 : Nat) : ℚ)
      MAX30101_CURRENT_LSB_NA,
    ir := fmul ((((fifo_data 2 <<< 8) ||| fifo_data 3) % 65536 : Nat) : ℚ)
      MAX30101_CURRENT_LSB_NA,
    green := fmul ((((fifo_data 4 <<< 8) ||| fifo_data 5) % 65536 : Nat) : ℚ)
      MAX30101_CURRENT_LSB_NA }

/-- Loop of MAX30101_ReadFIFO_Current: one 6-byte burst read per
iteration, bytes combined and scaled in place. -/
def MAX30101_ReadFIFO_Current_go (fmul : ℚ → ℚ → ℚ) (fifo : Nat → Nat) :
    Nat → Nat → (Nat → MAX30101_SampleCurrent) →
    (Nat → MAX30101_SampleCurrent) × List I2CTxn
  | _, 0, samples => (samples, [])
  | i, Nat.succ k, samples =>
    let rest := MAX30101_ReadFIFO_Current_go fmul fifo (i + 1) k
      (bufUpdate samples i (currentSampleAt fmul fifo i))
    (rest.1, I2CTxn.read SENSOR_ADDR FIFO_DATAREG 6 :: rest.2)

/-- MAX30101_ReadFIFO_Current: the fused read-and-convert path. -/
def MAX30101_ReadFIFO_Current (fmul : ℚ → ℚ → ℚ) (fifo : Nat → Nat)
    (samples : Nat → MAX30101_SampleCurrent) (num_samples : Nat) :
    (Nat → MAX30101_SampleCurrent) × List I2CTxn :=
  MAX30101_ReadFIFO_Current_go fmul fifo 0 num_samples samples

/-! ## Periodic acquisition trigger (SysTick_Handler, main.c) -/

/-- SysTick_Handler, acquisition part: query availability from the two
pointer register bytes, and if positive, fused-read that many samples into
the result buffer.  (The `ticks` increment and the LED toggle touch no bus
or buffer state and are omitted.)  Note the source passes
`available_samples` to MAX30101_ReadFIFO_Current unclamped. -/
def SysTick_Handler (fmul : ℚ → ℚ → ℚ) (fifo : Nat → Nat)
    (write_reg read_reg : Nat) (buf : Nat → MAX30101_SampleCurrent) :
    (Nat → MAX30101_SampleCurrent) × List I2CTxn :=
  let available_samples := MAX30101_GetNumAvailableSamples write_reg read_reg
  if available_samples > 0 then
    let r := MAX30101_ReadFIFO_Current fmul fifo buf available_samples
    (r.1, MAX30101_GetNumAvailableSamples_txns ++ r.2)
  else
    (buf, MAX30101_GetNumAvailableSamples_txns)

/-! ## Operating profiles (spec §3)

The source keeps no profile datum: which configuration routine ran last is
implicit global device state.  The profile enumeration and its channel
count are needed to state claims that mention "the active profile". -/

/-- Modelled from the spec: the closed enumeration of operating profiles
(§3); the source has no corresponding datum. -/
inductive OperatingProfile where
  | dualChannelLowPower
  | tripleChannelHighPenetration
deriving DecidableEq

/-- Modelled from the spec: the channel count of each operating profile
(§3: "includes channel count (2 or 3)"); the source has no corresponding
datum. -/
def channelCount : OperatingProfile → Nat
  | OperatingProfile.dualChannelLowPower => 2
  | OperatingProfile.tripleChannelHighPenetration => 3

/-! ## Bit-level helper lemmas -/

/-- Masking a register byte with 0x1F is reduction mod 32. -/
theorem and_0x1F_eq_mod (x : Nat) : x &&& 0x1F = x % 32 := by
  have h := Nat.and_pow_two_sub_one_eq_mod x 5
  norm_num at h
  exact h

/-- Combining a high byte and a low byte, `hi <<< 8 ||| lo`, is exactly
`hi * 256 + lo` when the low byte is in range. -/
theorem shift_or_eq (hi lo : Nat) (h : lo < 256) :
    (hi <<< 8) ||| lo = hi * 256 + lo := by
  have h8 : lo < 2 ^ 8 := by omega
  have hor := Nat.mul_add_lt_is_or h8 hi
  rw [Nat.shiftLeft_eq, Nat.mul_comm hi (2 ^ 8), ← hor]

/-! ## Loop lemmas for the two FIFO read paths -/

/-- Every iteration of the MAX30101_ReadFIFO loop issues exactly one
6-byte burst read of FIFO_DATAREG. -/
theorem readFIFO_go_trace (fifo : Nat → Nat) (k : Nat) :
    ∀ (i : Nat) (samples : Nat → MAX30101_Sample),
    (MAX30101_ReadFIFO_go fifo i k samples).2
      = List.replicate k (I2CTxn.read SENSOR_ADDR FIFO_DATAREG 6) := by
  induction k with
  | zero => intro i samples; rfl
  | succ k ih =>
    intro i samples
    simp [MAX30101_ReadFIFO_go, List.replicate, ih]

/-- The MAX30101_ReadFIFO loop writes no index outside `[i, i + k)`. -/
theorem readFIFO_go_frame (fifo : Nat → Nat) (k : Nat) :
    ∀ (i j : Nat) (samples : Nat → MAX30101_Sample), j < i ∨ i + k ≤ j →
    (MAX30101_ReadFIFO_go fifo i k samples).1 j = samples j := by
  induction k with
  | zero => intro i j samples _; rfl
  | succ k ih =>
    intro i j samples hj
    have hij : j ≠ i := by omega
    simp only [MAX30101_ReadFIFO_go]
    rw [ih (i + 1) j _ (by omega)]
    simp [bufUpdate, hij]

/-- Each index in `[i, i + k)` ends up holding the raw sample taken at
that index's byte offset. -/
theorem readFIFO_go_val (fifo : Nat → Nat) (k : Nat) :
    ∀ (i j : Nat) (samples : Nat → MAX30101_Sample), i ≤ j → j < i + k →
    (MAX30101_ReadFIFO_go fifo i k samples).1 j = rawSampleAt fifo j := by
  induction k with
  | zero => intro i j samples h1 h2; omega
  | succ k ih =>
    intro i j samples h1 h2
    by_cases hji : j = i
    · subst hji
      simp only [MAX30101_ReadFIFO_go]
      rw [readFIFO_go_frame fifo k (j + 1) j _ (Or.inl (by omega))]
      simp [bufUpdate]
    · simp only [MAX30101_ReadFIFO_go]
      exact ih (i + 1) j _ (by omega) (by omega)

/-- Every iteration of the MAX30101_ReadFIFO_Current loop issues exactly
one 6-byte burst read of FIFO_DATAREG. -/
theorem readFIFO_Current_go_trace (fmul : ℚ → ℚ → ℚ) (fifo : Nat → Nat)
    (k : Nat) :
    ∀ (i : Nat) (samples : Nat → MAX30101_SampleCurrent),
    (MAX30101_ReadFIFO_Current_go fmul fifo i k samples).2
      = List.replicate k (I2CTxn.read SENSOR_ADDR FIFO_DATAREG 6) := by
  induction k with
  | zero => intro i samples; rfl
  | succ k ih =>
    intro i samples
    simp [MAX30101_ReadFIFO_Current_go, List.replicate, ih]

/-- The MAX30101_ReadFIFO_Current loop writes no index outside
`[i, i + k)`. -/
theorem readFIFO_Current_go_frame (fmul : ℚ → ℚ → ℚ) (fifo : Nat → Nat)
    (k : Nat) :
    ∀ (i j : Nat) (samples : Nat → MAX30101_SampleCurrent),
    j < i ∨ i + k ≤ j →
    (MAX30101_ReadFIFO_Current_go fmul fifo i k samples).1 j = samples j := by
  induction k with
  | zero => intro i j samples _; rfl
  | succ k ih =>
    intro i j samples hj
    have hij : j ≠ i := by omega
    simp only [MAX30101_ReadFIFO_Current_go]
    rw [ih (i + 1) j _ (by omega)]
    simp [bufUpdate, hij]

/-- Each index in `[i, i + k)` ends up holding the fused-converted sample
taken at that index's byte offset. -/
theorem readFIFO_Current_go_val (fmul : ℚ → ℚ → ℚ) (fifo : Nat → Nat)
    (k : Nat) :
    ∀ (i j : Nat) (samples : Nat → MAX30101_SampleCurrent), i ≤ j →
    j < i + k →
    (MAX30101_ReadFIFO_Current_go fmul fifo i k samples).1 j
      = currentSampleAt fmul fifo j := by
  induction k with
  | zero => intro i j samples h1 h2; omega
  | succ k ih =>
    intro i j samples h1 h2
    by_cases hji : j = i
    · subst hji
      simp only [MAX30101_ReadFIFO_Current_go]
      rw [readFIFO_Current_go_frame fmul fifo k (j + 1) j _ (Or.inl (by omega))]
      simp [bufUpdate]
    · simp only [MAX30101_ReadFIFO_Current_go]
      exact ih (i + 1) j _ (by omega) (by omega)

/-- The fused per-sample conversion is definitionally the composition of
the two staged conversions applied to the raw sample of the same bytes. -/
theorem currentSampleAt_eq_two_stage (fmul : ℚ → ℚ → ℚ) (fifo : Nat → Nat)
    (i : Nat) :
    currentSampleAt fmul fifo i
      = MAX30101_ConvertUint16ToCurrent fmul
          (MAX30101_ConvertSampleToUint16 (rawSampleAt fifo i)) := rfl

/-! ## Concrete fixtures used by witnesses and counterexamples -/

/-- An all-zero raw sample, used as initial buffer contents. -/
def rawZeroSample : MAX30101_Sample :=
  { red0 := 0, red1 := 0, ir0 := 0, ir1 := 0, green0 := 0, green1 := 0 }

/-- An all-zero converted sample, used as initial buffer contents. -/
def zeroCurrentSample : MAX30101_SampleCurrent :=
  { red := 0, ir := 0, green := 0 }

/-- A result buffer holding 1 nA on every channel of every entry. -/
def bufInitOnes : Nat → MAX30101_SampleCurrent :=
  fun _ => { red := 1, ir := 1, green := 1 }

/-- Recognizer for writes to one of the three channel drive-current
(pulse-amplitude) registers. -/
def isDriveCurrentWrite (t : I2CTxn) : Bool :=
  match t with
  | I2CTxn.write _ a _ =>
    a == LED1_PAMPLI || a == LED2_PAMPLI || a == LED3_PAMPLI
  | I2CTxn.read _ _ _ => false

/-! ## Claim C2 -/

/-- C2: for every pair of raw pointer-register bytes, the value returned
by MAX30101_GetNumAvailableSamples equals (w − r) mod 32 on the 5-bit
masked pointers, always lies in [0, 31], is 0 when the masked pointers are
equal, and in particular equals 6 for writePtr = 3, readPtr = 29. -/
theorem getNumAvailableSamples_spec (w r : Nat) :
    ((MAX30101_GetNumAvailableSamples w r : Int)
        = (((w % 32 : Nat) : Int) - ((r % 32 : Nat) : Int)) % 32)
    ∧ MAX30101_GetNumAvailableSamples w r < 32
    ∧ (w % 32 = r % 32 → MAX30101_GetNumAvailableSamples w r = 0)
    ∧ MAX30101_GetNumAvailableSamples 3 29 = 6 := by
  simp only [MAX30101_GetNumAvailableSamples, and_0x1F_eq_mod]
  have hw : w % 32 < 32 := Nat.mod_lt _ (by norm_num)
  have hr : r % 32 < 32 := Nat.mod_lt _ (by norm_num)
  refine ⟨?_, ?_, ?_, by decide⟩
  · split <;> omega
  · split <;> omega
  · intro h
    split <;> omega

/-- Witness for getNumAvailableSamples_spec: equal pointers (w = r = 5)
give zero available samples. -/
theorem getNumAvailableSamples_spec_witness :
    MAX30101_GetNumAvailableSamples 5 5 = 0 :=
  (getNumAvailableSamples_spec 5 5).2.2.1 rfl

/-! ## Claim C6 -/

/-- C6: in both configuration sequences the FIFO read-pointer and
write-pointer resets (writes of value 0) appear in the emitted sequence —
hence before the routine returns — and come strictly after the FIFO
averaging/rollover configuration write and the acquisition-mode write. -/
theorem init_resets_fifo_pointers_after_config (ledPower : Nat) :
    (I2CTxn.write SENSOR_ADDR FIFO_READPTR 0 ∈ MAX30101_InitSPO2Lite
      ∧ I2CTxn.write SENSOR_ADDR FIFO_WRITPTR 0 ∈ MAX30101_InitSPO2Lite
      ∧ regWriteIdx MAX30101_InitSPO2Lite FIFO_CONFIG
          < regWriteIdx MAX30101_InitSPO2Lite FIFO_READPTR
      ∧ regWriteIdx MAX30101_InitSPO2Lite MODE_CONFIG
          < regWriteIdx MAX30101_InitSPO2Lite FIFO_READPTR
      ∧ regWriteIdx MAX30101_InitSPO2Lite FIFO_CONFIG
          < regWriteIdx MAX30101_InitSPO2Lite FIFO_WRITPTR
      ∧ regWriteIdx MAX30101_InitSPO2Lite MODE_CONFIG
          < regWriteIdx MAX30101_InitSPO2Lite FIFO_WRITPTR)
    ∧ (I2CTxn.write SENSOR_ADDR FIFO_READPTR 0 ∈ MAX30101_InitMuscleOx ledPower
      ∧ I2CTxn.write SENSOR_ADDR FIFO_WRITPTR 0 ∈ MAX30101_InitMuscleOx ledPower
      ∧ regWriteIdx (MAX30101_InitMuscleOx ledPower) FIFO_CONFIG
          < regWriteIdx (MAX30101_InitMuscleOx ledPower) FIFO_READPTR
      ∧ regWriteIdx (MAX30101_InitMuscleOx ledPower) MODE_CONFIG
          < regWriteIdx (MAX30101_InitMuscleOx ledPower) FIFO_READPTR
      ∧ regWriteIdx (MAX30101_InitMuscleOx ledPower) FIFO_CONFIG
          < regWriteIdx (MAX30101_InitMuscleOx ledPower) FIFO_WRITPTR
      ∧ regWriteIdx (MAX30101_InitMuscleOx ledPower) MODE_CONFIG
          < regWriteIdx (MAX30101_InitMuscleOx ledPower) FIFO_WRITPTR) := by
  refine ⟨by decide, ?_, ?_, ?_, ?_, ?_, ?_⟩
  · simp [MAX30101_InitMuscleOx, SENSOR_ADDR, FIFO_CONFIG, MODE_CONFIG,
      SPO2_CONFIG, FIFO_READPTR, FIFO_WRITPTR, LED1_PAMPLI, LED2_PAMPLI,
      LED3_PAMPLI, DIE_TEMPCFG]
  · simp [MAX30101_InitMuscleOx, SENSOR_ADDR, FIFO_CONFIG, MODE_CONFIG,
      SPO2_CONFIG, FIFO_READPTR, FIFO_WRITPTR, LED1_PAMPLI, LED2_PAMPLI,
      LED3_PAMPLI, DIE_TEMPCFG]
  all_goals
    simp [regWriteIdx, MAX30101_InitMuscleOx, List.findIdx_cons, SENSOR_ADDR,
      FIFO_CONFIG, MODE_CONFIG, SPO2_CONFIG, FIFO_READPTR, FIFO_WRITPTR,
      LED1_PAMPLI, LED2_PAMPLI, LED3_PAMPLI, DIE_TEMPCFG]

/-! ## Claim C8 -/

/-- C8: the fused read-and-convert invoked with num_samples = 0 leaves
every entry of the destination buffer untouched and issues no bus
transaction. -/
theorem readFIFO_Current_zero_samples (fmul : ℚ → ℚ → ℚ) (fifo : Nat → Nat)
    (buf : Nat → MAX30101_SampleCurrent) :
    MAX30101_ReadFIFO_Current fmul fifo buf 0 = (buf, []) := rfl

/-! ## Claim C9 -/

/-- C9: the triple-channel configuration writes the caller's drive-current
byte, unmodified and unvalidated, to all three channel pulse-amplitude
registers — and these are exactly its writes to drive-current registers. -/
theorem initMuscleOx_drive_current_unmodified (ledPower : Nat) :
    (MAX30101_InitMuscleOx ledPower).filter isDriveCurrentWrite
      = [ I2CTxn.write SENSOR_ADDR LED1_PAMPLI ledPower,
          I2CTxn.write SENSOR_ADDR LED2_PAMPLI ledPower,
          I2CTxn.write SENSOR_ADDR LED3_PAMPLI ledPower ] := by
  simp [MAX30101_InitMuscleOx, isDriveCurrentWrite, List.filter_cons,
    SENSOR_ADDR, FIFO_CONFIG, MODE_CONFIG, SPO2_CONFIG, FIFO_READPTR,
    FIFO_WRITPTR, LED1_PAMPLI, LED2_PAMPLI, LED3_PAMPLI, DIE_TEMPCFG]

/-! ## Claim C10 -/

/-- C10: both FIFO read routines write only the first n entries of their
destination buffer; every entry at an index ≥ n retains its previous
value. -/
theorem readFIFO_frame_preserved (fmul : ℚ → ℚ → ℚ) (fifo : Nat → Nat)
    (bufR : Nat → MAX30101_Sample) (bufC : Nat → MAX30101_SampleCurrent)
    (n j : Nat) (hj : n ≤ j) :
    (MAX30101_ReadFIFO fifo bufR n).1 j = bufR j
    ∧ (MAX30101_ReadFIFO_Current fmul fifo bufC n).1 j = bufC j :=
  ⟨readFIFO_go_frame fifo n 0 j bufR (Or.inr (by omega)),
   readFIFO_Current_go_frame fmul fifo n 0 j bufC (Or.inr (by omega))⟩

/-- Witness for readFIFO_frame_preserved: reading 2 samples leaves entry 3
of each destination buffer at its previous value. -/
theorem readFIFO_frame_preserved_witness :
    (MAX30101_ReadFIFO (fun k => k) (fun _ => rawZeroSample) 2).1 3
      = rawZeroSample
    ∧ (MAX30101_ReadFIFO_Current (fun a b => a * b) (fun k => k)
        (fun _ => zeroCurrentSample) 2).1 3 = zeroCurrentSample :=
  readFIFO_frame_preserved (fun a b => a * b) (fun k => k)
    (fun _ => rawZeroSample) (fun _ => zeroCurrentSample) 2 3 (by norm_num)

/-! ## Claim C3 -/

/-- C3: for every sample count and byte stream, each entry the fused path
writes equals exactly what the two-stage path (raw read, byte combination,
LSB scaling) produces from the same bus bytes — for an arbitrary float
multiply operation `fmul`, hence bit-identically, with the same operation
order and no reassociation — and both paths issue the identical bus
transaction sequence. -/
theorem readFIFO_Current_refines_two_stage (fmul : ℚ → ℚ → ℚ)
    (fifo : Nat → Nat) (bufR : Nat → MAX30101_Sample)
    (bufC : Nat → MAX30101_SampleCurrent) (n i : Nat) (hi : i < n) :
    (MAX30101_ReadFIFO_Current fmul fifo bufC n).1 i
      = MAX30101_ConvertUint16ToCurrent fmul
          (MAX30101_ConvertSampleToUint16 ((MAX30101_ReadFIFO fifo bufR n).1 i))
    ∧ (MAX30101_ReadFIFO_Current fmul fifo bufC n).2
        = (MAX30101_ReadFIFO fifo bufR n).2 := by
  constructor
  · have h1 : (MAX30101_ReadFIFO_Current fmul fifo bufC n).1 i
        = currentSampleAt fmul fifo i :=
      readFIFO_Current_go_val fmul fifo n 0 i bufC (Nat.zero_le i) (by omega)
    have h2 : (MAX30101_ReadFIFO fifo bufR n).1 i = rawSampleAt fifo i :=
      readFIFO_go_val fifo n 0 i bufR (Nat.zero_le i) (by omega)
    rw [h1, h2, currentSampleAt_eq_two_stage]
  · show (MAX30101_ReadFIFO_Current_go fmul fifo 0 n bufC).2
        = (MAX30101_ReadFIFO_go fifo 0 n bufR).2
    rw [readFIFO_Current_go_trace, readFIFO_go_trace]

/-- Witness for readFIFO_Current_refines_two_stage at n = 2, i = 1, on the
byte stream delivering byte value k at offset k, with exact rational
multiplication. -/
theorem readFIFO_Current_refines_two_stage_witness :
    (MAX30101_ReadFIFO_Current (fun a b => a * b) (fun k => k)
        (fun _ => zeroCurrentSample) 2).1 1
      = MAX30101_ConvertUint16ToCurrent (fun a b => a * b)
          (MAX30101_ConvertSampleToUint16
            ((MAX30101_ReadFIFO (fun k => k) (fun _ => rawZeroSample) 2).1 1))
    ∧ (MAX30101_ReadFIFO_Current (fun a b => a * b) (fun k => k)
        (fun _ => zeroCurrentSample) 2).2
      = (MAX30101_ReadFIFO (fun k => k) (fun _ => rawZeroSample) 2).2 :=
  readFIFO_Current_refines_two_stage (fun a b => a * b) (fun k => k)
    (fun _ => rawZeroSample) (fun _ => zeroCurrentSample) 2 1 (by norm_num)

/-! ## Claim C4 -/

/-- C4 counterexample: requesting 9 samples — more than the 8-entry
destination capacity used by this system — does not fail before any bus
transaction.  MAX30101_ReadFIFO has no failure outcome at all; the call
issues nine 6-byte burst reads. -/
theorem readFIFO_no_overflow_check_cex :
    MAX30101_SampleCurrentBufferCapacity < 9
    ∧ (MAX30101_ReadFIFO (fun _ => 0) (fun _ => rawZeroSample) 9).2
        = List.replicate 9 (I2CTxn.read SENSOR_ADDR FIFO_DATAREG 6)
    ∧ (MAX30101_ReadFIFO (fun _ => 0) (fun _ => rawZeroSample) 9).2 ≠ [] := by
  refine ⟨by decide, readFIFO_go_trace (fun _ => 0) 9 0 (fun _ => rawZeroSample), ?_⟩
  rw [show (MAX30101_ReadFIFO (fun _ => 0) (fun _ => rawZeroSample) 9).2
      = List.replicate 9 (I2CTxn.read SENSOR_ADDR FIFO_DATAREG 6)
    from readFIFO_go_trace (fun _ => 0) 9 0 (fun _ => rawZeroSample)]
  decide

/-- C4 (amended): MAX30101_ReadFIFO performs no capacity check and has no
failure outcome; for every request size it unconditionally issues exactly
that many bus transactions, regardless of any destination capacity. -/
theorem readFIFO_unchecked_always_reads (fifo : Nat → Nat)
    (buf : Nat → MAX30101_Sample) (n : Nat) :
    (MAX30101_ReadFIFO fifo buf n).2.length = n := by
  show (MAX30101_ReadFIFO_go fifo 0 n buf).2.length = n
  rw [readFIFO_go_trace]
  simp

/-! ## Claim C5 -/

/-- C5 counterexample: a single-sample raw read issues one 6-byte burst
read of the data port, while the claim's channelCount × 2 under the
dual-channel profile would be 4 ≠ 6. -/
theorem readFIFO_burst_size_cex :
    channelCount OperatingProfile.dualChannelLowPower * 2 = 4
    ∧ (MAX30101_ReadFIFO (fun _ => 0) (fun _ => rawZeroSample) 1).2
        = [I2CTxn.read SENSOR_ADDR FIFO_DATAREG 6]
    ∧ (6 : Nat) ≠ channelCount OperatingProfile.dualChannelLowPower * 2 := by
  decide

/-- C5 (amended): for every request size, each per-sample burst read from
the data port requests exactly 6 bytes (3 channels × 2 bytes), independent
of the active operating profile; this equals channelCount × 2 for the
triple-channel profile only. -/
theorem readFIFO_burst_always_six_bytes (fmul : ℚ → ℚ → ℚ)
    (fifo : Nat → Nat) (bufR : Nat → MAX30101_Sample)
    (bufC : Nat → MAX30101_SampleCurrent) (n : Nat) :
    (MAX30101_ReadFIFO fifo bufR n).2
      = List.replicate n (I2CTxn.read SENSOR_ADDR FIFO_DATAREG
          (channelCount OperatingProfile.tripleChannelHighPenetration * 2))
    ∧ (MAX30101_ReadFIFO_Current fmul fifo bufC n).2
      = List.replicate n (I2CTxn.read SENSOR_ADDR FIFO_DATAREG
          (channelCount OperatingProfile.tripleChannelHighPenetration * 2)) := by
  constructor
  · show (MAX30101_ReadFIFO_go fifo 0 n bufR).2 = _
    rw [readFIFO_go_trace]
    rfl
  · show (MAX30101_ReadFIFO_Current_go fmul fifo 0 n bufC).2 = _
    rw [readFIFO_Current_go_trace]
    rfl

/-! ## Claim C7 -/

/-- C7: for every byte pair the combination (hi << 8) | lo is exact and
lossless over the 16-bit range; the LSB constant equals 0.00781 nA
exactly; applying toCounts then toCurrent with exact rational
multiplication yields exactly the combined count × 0.00781 nA on every
channel; and for every multiply operation the two-stage result coincides
with the fused per-sample result on the same bytes (bit-identical floating
results). -/
theorem convert_round_trip_exact (hi lo : Nat) (h1 : hi < 256)
    (h2 : lo < 256) :
    ((hi <<< 8) ||| lo) = hi * 256 + lo
    ∧ ((hi <<< 8) ||| lo) < 65536
    ∧ MAX30101_CURRENT_LSB_NA = 781 / 100000
    ∧ MAX30101_ConvertUint16ToCurrent (fun a b => a * b)
        (MAX30101_ConvertSampleToUint16
          { red0 := hi, red1 := lo, ir0 := hi, ir1 := lo,
            green0 := hi, green1 := lo })
        = { red := ((hi * 256 + lo : Nat) : ℚ) * (781 / 100000),
            ir := ((hi * 256 + lo : Nat) : ℚ) * (781 / 100000),
            green := ((hi * 256 + lo : Nat) : ℚ) * (781 / 100000) }
    ∧ ∀ fmul : ℚ → ℚ → ℚ,
        MAX30101_ConvertUint16ToCurrent fmul
            (MAX30101_ConvertSampleToUint16
              { red0 := hi, red1 := lo, ir0 := hi, ir1 := lo,
                green0 := hi, green1 := lo })
          = currentSampleAt fmul (fun j => [hi, lo, hi, lo, hi, lo].getD j 0) 0 := by
  have hc := shift_or_eq hi lo h2
  have hlt : (hi <<< 8) ||| lo < 65536 := by omega
  have hmod : ((hi <<< 8) ||| lo) % 65536 = hi * 256 + lo := by omega
  refine ⟨hc, hlt, ?_, ?_, ?_⟩
  · norm_num [MAX30101_CURRENT_LSB_NA, MAX30101_CURRENT_LSB_PA]
  · simp [MAX30101_ConvertUint16ToCurrent, MAX30101_ConvertSampleToUint16,
      hmod, MAX30101_CURRENT_LSB_NA, MAX30101_CURRENT_LSB_PA]
    norm_num
  · intro fmul
    simp [MAX30101_ConvertUint16ToCurrent, MAX30101_ConvertSampleToUint16,
      currentSampleAt, Nat.mod_eq_of_lt h1, Nat.mod_eq_of_lt h2]

/-- Witness for convert_round_trip_exact at hi = 0x12, lo = 0x34
(count 4660). -/
theorem convert_round_trip_exact_witness :
    ((0x12 <<< 8) ||| 0x34 : Nat) = 0x12 * 256 + 0x34
    ∧ ((0x12 <<< 8) ||| 0x34 : Nat) < 65536
    ∧ MAX30101_CURRENT_LSB_NA = 781 / 100000
    ∧ MAX30101_ConvertUint16ToCurrent (fun a b => a * b)
        (MAX30101_ConvertSampleToUint16
          { red0 := 0x12, red1 := 0x34, ir0 := 0x12, ir1 := 0x34,
            green0 := 0x12, green1 := 0x34 })
        = { red := ((0x12 * 256 + 0x34 : Nat) : ℚ) * (781 / 100000),
            ir := ((0x12 * 256 + 0x34 : Nat) : ℚ) * (781 / 100000),
            green := ((0x12 * 256 + 0x34 : Nat) : ℚ) * (781 / 100000) }
    ∧ ∀ fmul : ℚ → ℚ → ℚ,
        MAX30101_ConvertUint16ToCurrent fmul
            (MAX30101_ConvertSampleToUint16
              { red0 := 0x12, red1 := 0x34, ir0 := 0x12, ir1 := 0x34,
                green0 := 0x12, green1 := 0x34 })
          = currentSampleAt fmul
              (fun j => [0x12, 0x34, 0x12, 0x34, 0x12, 0x34].getD j 0) 0 :=
  convert_round_trip_exact 0x12 0x34 (by decide) (by decide)

/-! ## Claim C1 -/

/-- C1 (code evaluated at the failing input): with FIFO write pointer 9
and read pointer 0 the trigger computes 9 available samples — more than
the 8-entry capacity of MAX30101_SampleCurrentBuffer — and passes 9 to the
fused read unclamped, which then writes the buffer entry at index 8, one
past the last valid index of the result buffer. -/
theorem sysTick_Handler_overruns_result_buffer :
    MAX30101_GetNumAvailableSamples 9 0 = 9
    ∧ MAX30101_SampleCurrentBufferCapacity < MAX30101_GetNumAvailableSamples 9 0
    ∧ (SysTick_Handler (fun a b => a * b) (fun _ => 0) 9 0 bufInitOnes).1
        MAX30101_SampleCurrentBufferCapacity
      ≠ bufInitOnes MAX30101_SampleCurrentBufferCapacity := by
  refine ⟨by decide, by decide, ?_⟩
  have hval : (SysTick_Handler (fun a b => a * b) (fun _ => 0) 9 0 bufInitOnes).1 8
      = currentSampleAt (fun a b => a * b) (fun _ => 0) 8 :=
    readFIFO_Current_go_val (fun a b => a * b) (fun _ => 0) 9 0 8 bufInitOnes
      (by omega) (by omega)
  show (SysTick_Handler (fun a b => a * b) (fun _ => 0) 9 0 bufInitOnes).1 8
      ≠ bufInitOnes 8
  rw [hval]
  simp [currentSampleAt, bufInitOnes, MAX30101_SampleCurrent.mk.injEq]
